import Mathlib

/-!
Shallow embedding of the HOIL/COIL toolchain core: the streaming instruction
codec (coil_format.h, binary_coil_utilities.c), the COIL virtual machine
(coil_vm.c), the type-compatibility relation of the HOIL checker (typecheck.c),
the COIL binary builder (binary.c / binary.h), the HOIL lexer (lexer.c) and the
debugger label table (coil_debugger.c).  Bytes are natural numbers < 256,
multi-byte scalars are little-endian as on the host the C sources target,
machine integers are Nat/Int with explicit reduction modulo 2^w, file I/O is a
byte list with an explicit cursor, and fallible C functions return Option or an
explicit error constructor.  Loops carry an explicit fuel argument that the
wrappers instantiate generously enough for every terminating C execution.
-/

/-- Little-endian byte encoding of `x` on `k` bytes, least significant byte
first.  Mirrors the little-endian field writes of `write_binary_instruction`
(binary_coil_utilities.c) and the byte order of `memcpy` on the target host. -/
def leBytes : Nat → Nat → List Nat
  | 0, _ => []
  | k + 1, x => x % 256 :: leBytes k (x / 256)

/-- Value of a little-endian byte list. -/
def leVal : List Nat → Nat
  | [] => 0
  | b :: bs => b + 256 * leVal bs

/-- Mirror of `binary_instruction_t` (coil_format.h).  The C field `type` is
named `mtype` here because `type` is reserved in Lean.  Field widths of the C
struct (u8/u16/u64) are recorded by `wfInstr`. -/
structure Instr where
  startMarker : Nat
  opCode : Nat
  typeMarker : Nat
  mtype : Nat
  varMarker : Nat
  varAddress : Nat
  immMarker : Nat
  immValue : Nat
  endMarker : Nat
deriving DecidableEq

/-- Mirror of `init_binary_instruction` (binary_coil_utilities.c): fills the
marker fields with their prescribed constants. -/
def initBinaryInstruction (opCode mtype varAddress immValue : Nat) : Instr :=
  { startMarker := 0xC0, opCode := opCode, typeMarker := 0xC3, mtype := mtype,
    varMarker := 0xC1, varAddress := varAddress, immMarker := 0xC2,
    immValue := immValue, endMarker := 0xCF }

/-- Mirror of `write_binary_instruction` (binary_coil_utilities.c): the nine
fields in file order, multi-byte fields little-endian.  The marker fields are
written from the record, not replaced by constants, exactly as in the C. -/
def encodeInstr (i : Instr) : List Nat :=
  i.startMarker ::
    (leBytes 2 i.opCode ++
      (i.typeMarker :: i.mtype :: i.varMarker ::
        (leBytes 2 i.varAddress ++
          (i.immMarker :: (leBytes 8 i.immValue ++ [i.endMarker])))))

/-- Result of reading one streaming record: success, end of input before the
first byte, or a read/marker error (`read_binary_instruction` returns
0 / 1 / negative respectively). -/
inductive ReadResult where
  | ok (i : Instr)
  | eof
  | err
deriving DecidableEq

/-- Mirror of `read_binary_instruction` (binary_coil_utilities.c and its copy
in coil_vm.c; both check the same markers at the same offsets).  EOF is
reported only when the very first byte is missing; a record that starts but is
cut short, or whose start/type/var/imm/end marker differs from its prescribed
value, is an error.  A successful read consumes exactly 18 bytes. -/
def readInstr : List Nat → ReadResult
  | [] => .eof
  | sm :: o0 :: o1 :: tm :: ty :: vk :: a0 :: a1 :: ik ::
      m0 :: m1 :: m2 :: m3 :: m4 :: m5 :: m6 :: m7 :: em :: _ =>
    if sm ≠ 0xC0 then .err
    else if tm ≠ 0xC3 then .err
    else if vk ≠ 0xC1 then .err
    else if ik ≠ 0xC2 then .err
    else if em ≠ 0xCF then .err
    else .ok { startMarker := sm, opCode := leVal [o0, o1], typeMarker := tm,
               mtype := ty, varMarker := vk, varAddress := leVal [a0, a1],
               immMarker := ik, immValue := leVal [m0, m1, m2, m3, m4, m5, m6, m7],
               endMarker := em }
  | _ :: _ => .err

/-- Prescribed marker byte at each of the five marker offsets of a record
(coil_format.h: 0xC0 at 0, 0xC3 at 3, 0xC1 at 5, 0xC2 at 8, 0xCF at 17). -/
def markerValueAt : Nat → Nat
  | 0 => 0xC0
  | 3 => 0xC3
  | 5 => 0xC1
  | 8 => 0xC2
  | 17 => 0xCF
  | _ => 0

/-- Well-formed record: marker fields hold their prescribed values and every
field fits the width of its C struct field (u16 opCode, u8 type, u16
varAddress, u64 immValue). -/
def wfInstr (i : Instr) : Prop :=
  i.startMarker = 0xC0 ∧ i.typeMarker = 0xC3 ∧ i.varMarker = 0xC1 ∧
  i.immMarker = 0xC2 ∧ i.endMarker = 0xCF ∧
  i.opCode < 2 ^ 16 ∧ i.mtype < 2 ^ 8 ∧ i.varAddress < 2 ^ 16 ∧ i.immValue < 2 ^ 64

instance : DecidablePred wfInstr := fun i => by
  unfold wfInstr
  infer_instance

/-- Mirror of `get_type_size` (coil_format.h). -/
def getTypeSize (t : Nat) : Nat :=
  if t = 0x01 ∨ t = 0x11 ∨ t = 0x81 then 1
  else if t = 0x02 ∨ t = 0x12 then 2
  else if t = 0x04 ∨ t = 0x14 ∨ t = 0x24 then 4
  else if t = 0x08 ∨ t = 0x18 ∨ t = 0x28 ∨ t = 0x40 then 8
  else 0

/-- STATIC_MEMORY_SIZE of coil_vm.c. -/
def STATIC_MEMORY_SIZE : Nat := 4096

/-- STACK_SIZE of coil_vm.c. -/
def STACK_SIZE : Nat := 4096

/-- CALL_STACK_SIZE of coil_vm.c. -/
def CALL_STACK_SIZE : Nat := 256

/-- MAX_LABELS of coil_vm.c and coil_debugger.c. -/
def MAX_LABELS : Nat := 256

/-- Write a byte list into an address-indexed memory, first byte at `addr`
(the memcpy of the C sources; addresses beyond an arena are representable
because the C bounds checks validate only the base address). -/
def memStoreBytes (m : Nat → Nat) (addr : Nat) : List Nat → (Nat → Nat)
  | [] => m
  | b :: bs => memStoreBytes (fun x => if x = addr then b else m x) (addr + 1) bs

/-- Read `k` bytes starting at `addr`. -/
def memReadBytes (m : Nat → Nat) (addr : Nat) : Nat → List Nat
  | 0 => []
  | k + 1 => m addr :: memReadBytes m (addr + 1) k

/-- Two's-complement reading of a 64-bit word as a signed integer (the
`int64_t` loads of the arithmetic and jump handlers). -/
def toInt64 (n : Nat) : Int :=
  if n % 2 ^ 64 < 2 ^ 63 then ((n % 2 ^ 64 : Nat) : Int)
  else ((n % 2 ^ 64 : Nat) : Int) - 2 ^ 64

/-- Two's-complement reading of a 32-bit word as a signed integer (the C cast
of `imm_value` to `int` in OP_EXIT). -/
def toInt32 (n : Nat) : Int :=
  if n % 2 ^ 32 < 2 ^ 31 then ((n % 2 ^ 32 : Nat) : Int)
  else ((n % 2 ^ 32 : Nat) : Int) - 2 ^ 32

/-- Little-endian bytes of a signed 64-bit result stored back to memory. -/
def int64Bytes (v : Int) : List Nat :=
  leBytes 8 (v % (2 ^ 64 : Int)).toNat

/-- Mirror of `vm_state_t` (coil_vm.c) restricted to the observable execution
state.  The heap free list of `vm_malloc` is host-pointer based and is not
modelled (see `executeInstruction` on opcodes 0x0600-0x0603).  `output`
records the host `write` calls issued by SYSCALL 1 as (fd, bytes) events. -/
structure VMState where
  staticMemory : Nat → Nat
  staticMemoryUsed : Nat
  stack : Nat → Nat
  stackUsed : Nat
  callStack : Nat → Nat
  callStackUsed : Nat
  labels : List (Nat × Nat)
  pos : Nat
  instructionCount : Nat
  running : Bool
  exitCode : Int
  output : List (Nat × List Nat)

/-- Mirror of `initialize_vm`: zeroed arenas, empty stacks, given label table,
cursor at 0, running with exit code 0. -/
def initVM (labels : List (Nat × Nat)) : VMState :=
  { staticMemory := fun _ => 0, staticMemoryUsed := 0,
    stack := fun _ => 0, stackUsed := 0,
    callStack := fun _ => 0, callStackUsed := 0,
    labels := labels, pos := 0, instructionCount := 0,
    running := true, exitCode := 0, output := [] }

/-- Mirror of the VM `add_label` (coil_vm.c): capacity check first, then a
duplicate id is an error, otherwise append. -/
def vmAddLabel (labels : List (Nat × Nat)) (labelId filePosition : Nat) :
    Option (List (Nat × Nat)) :=
  if MAX_LABELS ≤ labels.length then none
  else if labels.any (fun e => e.1 == labelId) then none
  else some (labels ++ [(labelId, filePosition)])

/-- Mirror of the VM `find_label`: position of the first entry with the id. -/
def vmFindLabel : List (Nat × Nat) → Nat → Option Nat
  | [], _ => none
  | e :: rest, labelId =>
    if e.1 = labelId then some e.2 else vmFindLabel rest labelId

/-- The OP_ALLOC_IMM case of `execute_instruction` (coil_vm.c): type size,
base-address bounds check, memcpy of the immediate, grow the used counter. -/
def execAllocImm (s : VMState) (i : Instr) : Bool × VMState :=
  let size := getTypeSize i.mtype
  if size = 0 then (false, s)
  else if STATIC_MEMORY_SIZE ≤ i.varAddress then (false, s)
  else
    let mem := memStoreBytes s.staticMemory i.varAddress (leBytes size i.immValue)
    let used := if s.staticMemoryUsed < i.varAddress + size
      then i.varAddress + size else s.staticMemoryUsed
    (true, { s with staticMemory := mem, staticMemoryUsed := used })

/-- The OP_ALLOC_MEM case: copy type-sized bytes from the address in the low
16 bits of imm_value, then grow the used counter. -/
def execAllocMem (s : VMState) (i : Instr) : Bool × VMState :=
  let size := getTypeSize i.mtype
  if size = 0 then (false, s)
  else if STATIC_MEMORY_SIZE ≤ i.varAddress ∨
      STATIC_MEMORY_SIZE ≤ i.immValue % 2 ^ 16 then (false, s)
  else
    let bytes := memReadBytes s.staticMemory (i.immValue % 2 ^ 16) size
    let mem := memStoreBytes s.staticMemory i.varAddress bytes
    let used := if s.staticMemoryUsed < i.varAddress + size
      then i.varAddress + size else s.staticMemoryUsed
    (true, { s with staticMemory := mem, staticMemoryUsed := used })

/-- The OP_MOVE case: ALLOC_MEM without the used-counter update. -/
def execMove (s : VMState) (i : Instr) : Bool × VMState :=
  let size := getTypeSize i.mtype
  if size = 0 then (false, s)
  else if STATIC_MEMORY_SIZE ≤ i.varAddress ∨
      STATIC_MEMORY_SIZE ≤ i.immValue % 2 ^ 16 then (false, s)
  else
    let bytes := memReadBytes s.staticMemory (i.immValue % 2 ^ 16) size
    (true, { s with staticMemory := memStoreBytes s.staticMemory i.varAddress bytes })

/-- The OP_ADD .. OP_MOD cases: 64-bit signed arithmetic with the source
addresses in the high and low 16-bit halves of imm_value; division or modulo
with a zero divisor is the fatal error of the C handlers. -/
def execArith (s : VMState) (i : Instr) : Bool × VMState :=
  let src1Addr := i.immValue / 2 ^ 32 % 2 ^ 16
  let src2Addr := i.immValue % 2 ^ 16
  if STATIC_MEMORY_SIZE ≤ i.varAddress ∨ STATIC_MEMORY_SIZE ≤ src1Addr ∨
      STATIC_MEMORY_SIZE ≤ src2Addr then (false, s)
  else
    let a := toInt64 (leVal (memReadBytes s.staticMemory src1Addr 8))
    let b := toInt64 (leVal (memReadBytes s.staticMemory src2Addr 8))
    if (i.opCode = 0x0104 ∨ i.opCode = 0x0105) ∧ b = 0 then (false, s)
    else
      let v := if i.opCode = 0x0101 then a + b
        else if i.opCode = 0x0102 then a - b
        else if i.opCode = 0x0103 then a * b
        else if i.opCode = 0x0104 then Int.tdiv a b
        else Int.tmod a b
      (true, { s with staticMemory := memStoreBytes s.staticMemory i.varAddress (int64Bytes v) })

/-- The OP_JMP case: seek to the label position; unknown label is fatal. -/
def execJmp (s : VMState) (i : Instr) : Bool × VMState :=
  match vmFindLabel s.labels (i.immValue % 2 ^ 16) with
  | none => (false, s)
  | some p => (true, { s with pos := p })

/-- The OP_JEQ .. OP_JGE cases: imm_value packs src1@[48:64], src2@[32:48]
and the label id in the low 16 bits; compare 64-bit signed, conditionally
seek. -/
def execCondJump (s : VMState) (i : Instr) : Bool × VMState :=
  let src1Addr := i.immValue / 2 ^ 48 % 2 ^ 16
  let src2Addr := i.immValue / 2 ^ 32 % 2 ^ 16
  let labelId := i.immValue % 2 ^ 16
  if STATIC_MEMORY_SIZE ≤ src1Addr ∨ STATIC_MEMORY_SIZE ≤ src2Addr then (false, s)
  else
    let a := toInt64 (leVal (memReadBytes s.staticMemory src1Addr 8))
    let b := toInt64 (leVal (memReadBytes s.staticMemory src2Addr 8))
    let cond := if i.opCode = 0x0302 then a = b
      else if i.opCode = 0x0303 then a ≠ b
      else if i.opCode = 0x0304 then a < b
      else if i.opCode = 0x0305 then a ≤ b
      else if i.opCode = 0x0306 then b < a
      else b ≤ a
    if cond then
      match vmFindLabel s.labels labelId with
      | none => (false, s)
      | some p => (true, { s with pos := p })
    else (true, s)

/-- The OP_CALL case: push the return position, then look the label up; the
push happens before the lookup exactly as in the C, so an unknown label
leaves the pushed frame behind. -/
def execCall (s : VMState) (i : Instr) : Bool × VMState :=
  if CALL_STACK_SIZE ≤ s.callStackUsed then (false, s)
  else
    let pushed := { s with
      callStack := fun x => if x = s.callStackUsed then s.pos else s.callStack x,
      callStackUsed := s.callStackUsed + 1 }
    match vmFindLabel s.labels (i.immValue % 2 ^ 16) with
    | none => (false, pushed)
    | some p => (true, { pushed with pos := p })

/-- The OP_RET case: pop the call stack and seek; underflow is fatal.  The
record itself carries no operand the handler reads. -/
def execRet (s : VMState) (_i : Instr) : Bool × VMState :=
  if s.callStackUsed = 0 then (false, s)
  else (true, { s with pos := s.callStack (s.callStackUsed - 1),
                       callStackUsed := s.callStackUsed - 1 })

/-- The OP_PUSH case: copy type-sized bytes from static memory onto the data
stack; overflow is fatal. -/
def execPush (s : VMState) (i : Instr) : Bool × VMState :=
  let size := getTypeSize i.mtype
  if size = 0 then (false, s)
  else if STATIC_MEMORY_SIZE ≤ i.varAddress then (false, s)
  else if STACK_SIZE < s.stackUsed + size then (false, s)
  else
    let bytes := memReadBytes s.staticMemory i.varAddress size
    (true, { s with stack := memStoreBytes s.stack s.stackUsed bytes,
                    stackUsed := s.stackUsed + size })

/-- The OP_POP case: pop type-sized bytes into static memory; underflow is
fatal; the C does not update static_memory_used here. -/
def execPop (s : VMState) (i : Instr) : Bool × VMState :=
  let size := getTypeSize i.mtype
  if size = 0 then (false, s)
  else if STATIC_MEMORY_SIZE ≤ i.varAddress then (false, s)
  else if s.stackUsed < size then (false, s)
  else
    let newUsed := s.stackUsed - size
    let bytes := memReadBytes s.stack newUsed size
    (true, { s with staticMemory := memStoreBytes s.staticMemory i.varAddress bytes,
                    stackUsed := newUsed })

/-- The OP_SYSCALL case: read the next record; an ARG_DATA record (opcode
0xFFFF) is consumed and its imm_value reinterpreted as four little-endian u16
arguments; otherwise the cursor is restored.  Syscall 1 is the host write,
modelled as an always-successful append of (fd, bytes) to `output`; syscall
60 is exit; anything else is fatal. -/
def execSyscall (file : List Nat) (s : VMState) (i : Instr) : Bool × VMState :=
  match readInstr (file.drop s.pos) with
  | .ok arg =>
    if arg.opCode = 0xFFFF then
      let s1 := { s with pos := s.pos + 18 }
      let num := i.immValue % 2 ^ 16
      let a0 := arg.immValue % 2 ^ 16
      let a1 := arg.immValue / 2 ^ 16 % 2 ^ 16
      let a2 := arg.immValue / 2 ^ 32 % 2 ^ 16
      if num = 1 then
        if STATIC_MEMORY_SIZE ≤ a1 then (false, s1)
        else (true, { s1 with
          output := s1.output ++ [(a0, memReadBytes s1.staticMemory a1 a2)] })
      else if num = 60 then
        (true, { s1 with exitCode := (a0 : Int), running := false })
      else (false, s1)
    else
      let num := i.immValue % 2 ^ 16
      if num = 60 then (true, { s with exitCode := 0, running := false })
      else (false, s)
  | _ =>
    let num := i.immValue % 2 ^ 16
    if num = 60 then (true, { s with exitCode := 0, running := false })
    else (false, s)

/-- Mirror of `execute_instruction` (coil_vm.c): dispatch on the operation
code; each switch case is its own definition above.  The state passed in
already has the cursor advanced past the record, as the C file cursor is
after `read_binary_instruction`.  Returns (success?, new state); every C
error path returning -1 becomes `false` paired with the state as mutated so
far.  OP_EXIT and the label-definition skip are inline as in the C.  The heap
operations 0x0600-0x0603 (`execute_memory_operation`) manipulate a
host-pointer free list and are outside the embedding; no claim executes them
and they are conservatively mapped to a failing step, which, like the real
handlers, never touches `running` or `exitCode`. -/
def executeInstruction (file : List Nat) (s : VMState) (i : Instr) :
    Bool × VMState :=
  if i.opCode = 0x0001 then execAllocImm s i
  else if i.opCode = 0x0002 then execAllocMem s i
  else if i.opCode = 0x0003 then execMove s i
  else if i.opCode = 0x0101 ∨ i.opCode = 0x0102 ∨ i.opCode = 0x0103 ∨
      i.opCode = 0x0104 ∨ i.opCode = 0x0105 then execArith s i
  else if i.opCode = 0x0301 then execJmp s i
  else if i.opCode = 0x0302 ∨ i.opCode = 0x0303 ∨ i.opCode = 0x0304 ∨
      i.opCode = 0x0305 ∨ i.opCode = 0x0306 ∨ i.opCode = 0x0307 then
    execCondJump s i
  else if i.opCode = 0x0401 then execCall s i
  else if i.opCode = 0x0402 then execRet s i
  else if i.opCode = 0x0403 then execPush s i
  else if i.opCode = 0x0404 then execPop s i
  else if i.opCode = 0x0501 then execSyscall file s i
  else if i.opCode = 0x0502 then
    (true, { s with exitCode := toInt32 i.immValue, running := false })
  else if i.opCode = 0xFFFE then (true, s)
  else (false, s)

/-- Mirror of `run_vm` (coil_vm.c): read, dispatch, count, until EOF or
`running` is cleared; a read error or a failing instruction aborts with -1.
`none` means the fuel ran out before the C loop would have terminated. -/
def runVM (file : List Nat) : Nat → VMState → Option (Int × VMState)
  | 0, _ => none
  | fuel + 1, s =>
    if s.running = false then some (s.exitCode, s)
    else
      match readInstr (file.drop s.pos) with
      | .eof => some (s.exitCode, s)
      | .err => some (-1, s)
      | .ok i =>
        let r := executeInstruction file { s with pos := s.pos + 18 } i
        if r.1 then
          runVM file fuel { r.2 with instructionCount := r.2.instructionCount + 1 }
        else some (-1, r.2)

/-- Mirror of `collect_labels` (coil_vm.c): scan every record, store
(varAddress, position-after-record) for each LABEL_DEF, fail on a duplicate
id or a read error, stop at EOF. -/
def collectLabels (file : List Nat) : Nat → Nat → List (Nat × Nat) →
    Option (List (Nat × Nat))
  | 0, _, _ => none
  | fuel + 1, pos, acc =>
    match readInstr (file.drop pos) with
    | .eof => some acc
    | .err => none
    | .ok i =>
      if i.opCode = 0xFFFE then
        match vmAddLabel acc i.varAddress (pos + 18) with
        | none => none
        | some acc2 => collectLabels file fuel (pos + 18) acc2
      else collectLabels file fuel (pos + 18) acc

/-- Mirror of the VM `main` pipeline in binary mode: initialize, collect
labels over the whole stream, rewind, run. -/
def runProgram (file : List Nat) (fuel : Nat) : Option (Int × VMState) :=
  match collectLabels file fuel 0 [] with
  | none => none
  | some labels => runVM file fuel (initVM labels)

/-- Stream of scenario 3 of spec section 8: `ALLOC_IMM i64 @10 = 2`,
`ALLOC_IMM i64 @18 = 40`, `ADD @0` with imm packing src1=10, src2=18
(MEM_INT64 = 0x08, OP_ALLOC_IMM = 0x0001, OP_ADD = 0x0101). -/
def c1File : List Nat :=
  encodeInstr (initBinaryInstruction 0x0001 0x08 10 2) ++
  encodeInstr (initBinaryInstruction 0x0001 0x08 18 40) ++
  encodeInstr (initBinaryInstruction 0x0101 0x08 0 ((10 <<< 32) ||| 18))

/-- Single ALLOC_IMM of an 8-byte i64 at the last in-bounds base address
4095 = STATIC_MEMORY_SIZE - 1, with a recognizable byte pattern. -/
def c4File : List Nat :=
  encodeInstr (initBinaryInstruction 0x0001 0x08 4095 0x0707070707070707)

/-- Single OP_DIV whose source operands both read the zeroed memory:
src1 = @0, src2 = @8, divisor value 0, a divide-by-zero fatal error. -/
def c5File : List Nat :=
  encodeInstr (initBinaryInstruction 0x0104 0x08 16 8)

/-- The OP_DIV record of `c5File`. -/
def c5DivInstr : Instr := initBinaryInstruction 0x0104 0x08 16 8

/-- Stream of scenario 5 of spec section 8: five `ALLOC_IMM u8` records at
addresses 0..4 (MEM_UINT8 = 0x11), then SYSCALL 1 and an ARG_DATA record
packing fd=1, buf=0, count=5 into its imm_value. -/
def c8File : List Nat :=
  encodeInstr (initBinaryInstruction 0x0001 0x11 0 72) ++
  encodeInstr (initBinaryInstruction 0x0001 0x11 1 101) ++
  encodeInstr (initBinaryInstruction 0x0001 0x11 2 108) ++
  encodeInstr (initBinaryInstruction 0x0001 0x11 3 108) ++
  encodeInstr (initBinaryInstruction 0x0001 0x11 4 10) ++
  encodeInstr (initBinaryInstruction 0x0501 0 0 1) ++
  encodeInstr (initBinaryInstruction 0xFFFF 0 0 (1 ||| (5 <<< 32)))

/-- Mirror of the resolved HOIL type shapes of `ast_node_t` (ast.h) as used by
`typecheck_are_types_compatible` (typecheck.c).  Named types are resolved to
their underlying structural form by `resolve_type` before the comparison, so
they do not appear.  Structure compatibility in the C is pointer identity of
the AST node; `structId` stands for that node identity. -/
inductive HType where
  | void
  | bool
  | int (bits : Nat) (isSigned : Bool)
  | float (bits : Nat)
  | ptr (elementType : HType)
  | vec (size : Nat) (elementType : HType)
  | array (size : Nat) (elementType : HType)
  | struct (structId : Nat)
  | fn (parameterTypes : List HType) (returnType : HType)

mutual

/-- Mirror of `typecheck_are_types_compatible` (typecheck.c, lines 224-334) on
resolved types.  When the two tags are equal the switch decides, and for two
integer types it requires equal bits AND equal signedness (lines 249-250);
the later same-width signed/unsigned special case (lines 322-325) is
unreachable for two integer types because the equal-tag branch has already
returned, so it has no counterpart arm here.  The remaining special cases
(ptr vs int returning false, int vs float coercion) apply only to distinct
tags and appear below the equal-tag arms. -/
def areTypesCompatible : HType → HType → Bool
  | .void, .void => true
  | .bool, .bool => true
  | .int b1 s1, .int b2 s2 => b1 == b2 && s1 == s2
  | .float b1, .float b2 => b1 == b2
  | .ptr e1, .ptr e2 => areTypesCompatible e1 e2
  | .vec n1 e1, .vec n2 e2 => n1 == n2 && areTypesCompatible e1 e2
  | .array n1 e1, .array n2 e2 => n1 == n2 && areTypesCompatible e1 e2
  | .struct i1, .struct i2 => i1 == i2
  | .fn p1 r1, .fn p2 r2 =>
    areTypesCompatible r1 r2 && p1.length == p2.length && areTypesCompatibleList p1 p2
  | .ptr _, .int _ _ => false
  | .int _ _, .float _ => true
  | .float _, .int _ _ => true
  | _, _ => false

/-- Pairwise compatibility of the parameter lists (the loop at lines 294-300
of typecheck.c; the count equality has already been checked). -/
def areTypesCompatibleList : List HType → List HType → Bool
  | [], [] => true
  | a :: as, b :: bs => areTypesCompatible a b && areTypesCompatibleList as bs
  | _, _ => false

end

/-- SECTION_COUNT of binary.h. -/
def SECTION_COUNT : Nat := 7

/-- COIL_MAGIC of binary.h: the u32 0x434F494C. -/
def COIL_MAGIC : Nat := 0x434F494C

/-- Mirror of `coil_header_t` (binary.h). -/
structure CoilHeader where
  magic : Nat
  version : Nat
  sectionCount : Nat
  flags : Nat
deriving DecidableEq

/-- The header written by `coil_builder_build` (binary.c, lines 835-839). -/
def builtHeader : CoilHeader :=
  { magic := COIL_MAGIC, version := 0x00010000, sectionCount := SECTION_COUNT,
    flags := 0 }

/-- Serialization of the header struct: four u32 fields, little-endian, as the
`memcpy` of the struct produces on the little-endian target host. -/
def serializeHeader (h : CoilHeader) : List Nat :=
  leBytes 4 h.magic ++ leBytes 4 h.version ++
  leBytes 4 h.sectionCount ++ leBytes 4 h.flags

/-- One section payload as written by the build loop: the data then zero bytes
until the running offset is 4-byte aligned. -/
def sectionPayload (d : List Nat) (off : Nat) : List Nat :=
  d ++ List.replicate ((4 - (off + d.length) % 4) % 4) 0

/-- The section table of `coil_builder_build`: one (type, offset, size) entry
per section with the running padded offset. -/
def buildTable : Nat → List (List Nat) → Nat → List Nat
  | _, [], _ => []
  | idx, d :: rest, off =>
    (leBytes 4 idx ++ leBytes 4 off ++ leBytes 4 d.length) ++
    buildTable (idx + 1) rest (off + (sectionPayload d off).length)

/-- The concatenated padded section payloads of `coil_builder_build`. -/
def buildPayload : List (List Nat) → Nat → List Nat
  | [], _ => []
  | d :: rest, off =>
    sectionPayload d off ++ buildPayload rest (off + (sectionPayload d off).length)

/-- Mirror of `coil_builder_build` (binary.c, lines 812-871) on the section
data of the builder: header bytes, then the section table starting at offset
16, then the payloads starting at 16 + SECTION_COUNT * 12 = 100.  The builder
always holds exactly SECTION_COUNT sections. -/
def coilBuilderBuild (sections : List (List Nat)) : List Nat :=
  serializeHeader builtHeader ++
  buildTable 0 sections (16 + SECTION_COUNT * 12) ++
  buildPayload sections (16 + SECTION_COUNT * 12)

/-- Mirror of `coil_create_type_encoding` (binary.c, lines 873-877): the
documented nibble packing [category:4][width:8][qualifiers:8][attributes:12]
of binary.h, reduced to the u32 it is stored in. -/
def coilCreateTypeEncoding (category width qualifiers attributes : Nat) : Nat :=
  ((category <<< 28) ||| (width <<< 20) ||| (qualifiers <<< 12) ||| attributes) % 2 ^ 32

/-- TYPE_INTEGER of binary.h. -/
def TYPE_INTEGER : Nat := 0x02

/-- The static `predefined_types` table of binary.c (lines 98-140), in order
void, bool, i8, u8, i16, u16, i32, u32, i64, u64, f16, f32, f64, ptr. -/
def predefinedTypes : List Nat :=
  [0x00000000, 0x01000001, 0x02080000, 0x02080100, 0x02100000, 0x02100100,
   0x02200000, 0x02200100, 0x02400000, 0x02400100, 0x03100000, 0x03200000,
   0x03400000, 0x04400000]

/-- Byte of a source text at an index: the C accessors return the NUL byte 0
once the index reaches the length (`lexer_current_char`, `lexer_peek_char`). -/
def byteAt (src : List Nat) (j : Nat) : Nat :=
  if j < src.length then src.getD j 0 else 0

/-- Token categories of lexer.h (token_type_t). -/
inductive TokenType where
  | eof | error
  | lparen | rparen | lbrace | rbrace | lbracket | rbracket
  | comma | dot | semicolon | colon | arrow | equal | less | greater
  | kwModule | kwTarget | kwType | kwConstant | kwGlobal | kwExtern
  | kwFunction | kwEntry
  | tyVoid | tyBool | tyI8 | tyI16 | tyI32 | tyI64 | tyU8 | tyU16 | tyU32 | tyU64
  | tyF16 | tyF32 | tyF64 | tyPtr | tyVec | tyArray
  | identifier | integer | float | string
  | insAdd | insSub | insMul | insDiv | insRem | insNeg
  | insAnd | insOr | insXor | insNot | insShl | insShr
  | insCmpEq | insCmpNe | insCmpLt | insCmpLe | insCmpGt | insCmpGe
  | insLoad | insStore | insLea | insBr | insCall | insRet
deriving DecidableEq

/-- Mirror of `struct lexer` (lexer.c).  The peeked-token cache is not
carried: a freshly created lexer has `has_peeked = false`, and every fact
proved here is about `scan_token` on such a state. -/
structure Lexer where
  src : List Nat
  pos : Nat
  line : Nat
  col : Nat
  tokenStart : Nat
  tokenLine : Nat
  tokenCol : Nat
deriving DecidableEq

/-- Mirror of `token_t` (lexer.h): type, start offset into the source, length,
and 1-based location.  The numeric `value` field filled by strtoll/strtod is
outside the embedding (no claim concerns literal values). -/
structure Token where
  ttype : TokenType
  startPos : Nat
  length : Nat
  line : Nat
  col : Nat
deriving DecidableEq

/-- Mirror of `lexer_create`. -/
def lexerCreate (src : List Nat) : Lexer :=
  { src := src, pos := 0, line := 1, col := 1,
    tokenStart := 0, tokenLine := 1, tokenCol := 1 }

/-- Mirror of `lexer_current_char`. -/
def currentChar (lx : Lexer) : Nat := byteAt lx.src lx.pos

/-- Mirror of `lexer_peek_char`. -/
def peekChar (lx : Lexer) : Nat := byteAt lx.src (lx.pos + 1)

/-- Mirror of `lexer_advance`: no movement on NUL, newline bumps the line and
resets the column to 1. -/
def lexerAdvance (lx : Lexer) : Lexer :=
  let c := currentChar lx
  if c = 0 then lx
  else
    let lx1 := { lx with pos := lx.pos + 1, col := lx.col + 1 }
    if c = 10 then { lx1 with line := lx1.line + 1, col := 1 } else lx1

/-- C-locale `isspace` on a byte. -/
def isSpaceByte (c : Nat) : Bool := c == 32 || (decide (9 ≤ c) && decide (c ≤ 13))

/-- C-locale `isdigit` on a byte. -/
def isDigitByte (c : Nat) : Bool := decide (48 ≤ c) && decide (c ≤ 57)

/-- C-locale `isalpha` on a byte. -/
def isAlphaByte (c : Nat) : Bool :=
  (decide (65 ≤ c) && decide (c ≤ 90)) || (decide (97 ≤ c) && decide (c ≤ 122))

/-- Mirror of `is_identifier_char`: alphanumeric or underscore. -/
def isIdentByte (c : Nat) : Bool := isAlphaByte c || isDigitByte c || c == 95

/-- The line-comment loop of `lexer_skip_whitespace_and_comments`: advance
until a newline or the end of input. -/
def skipLineLoop : Nat → Lexer → Lexer
  | 0, lx => lx
  | f + 1, lx =>
    if currentChar lx ≠ 10 ∧ currentChar lx ≠ 0 then skipLineLoop f (lexerAdvance lx)
    else lx

/-- The block-comment loop of `lexer_skip_whitespace_and_comments`: advance
until the two-byte closer; the Bool reports whether the closer was found.  On
end of input the C returns from the whole skip function (the unterminated
case), reported here as `false`. -/
def skipBlockLoop : Nat → Lexer → Lexer × Bool
  | 0, lx => (lx, false)
  | f + 1, lx =>
    if currentChar lx = 42 ∧ peekChar lx = 47 then (lx, true)
    else if currentChar lx = 0 then (lx, false)
    else skipBlockLoop f (lexerAdvance lx)

/-- The outer loop of `lexer_skip_whitespace_and_comments` (lexer.c, lines
241-287): skip spaces, line comments and block comments; an unterminated
block comment returns immediately with the cursor at the end of input. -/
def skipWsLoop : Nat → Lexer → Lexer
  | 0, lx => lx
  | f + 1, lx =>
    if isSpaceByte (currentChar lx) then skipWsLoop f (lexerAdvance lx)
    else if currentChar lx = 47 ∧ peekChar lx = 47 then
      skipWsLoop f (skipLineLoop (lx.src.length + 1) (lexerAdvance (lexerAdvance lx)))
    else if currentChar lx = 47 ∧ peekChar lx = 42 then
      let r := skipBlockLoop (lx.src.length + 1) (lexerAdvance (lexerAdvance lx))
      if r.2 then skipWsLoop f (lexerAdvance (lexerAdvance r.1))
      else r.1
    else lx

/-- Wrapper instantiating the fuel: the C loops advance the cursor on every
iteration, so src.length + 1 steps always suffice. -/
def lexerSkipWhitespaceAndComments (lx : Lexer) : Lexer :=
  skipWsLoop (lx.src.length + 1) lx

/-- Mirror of `init_token`: type plus the span recorded in the lexer. -/
def initToken (lx : Lexer) (t : TokenType) : Token :=
  { ttype := t, startPos := lx.tokenStart, length := lx.pos - lx.tokenStart,
    line := lx.tokenLine, col := lx.tokenCol }

/-- Bytes of a string literal, for the keyword tables. -/
def strBytes (s : String) : List Nat := s.toList.map Char.toNat

/-- The `keywords` table of lexer.c in order. -/
def keywordTable : List (List Nat × TokenType) :=
  [(strBytes ("MODULE"), .kwModule), (strBytes ("TARGET"), .kwTarget),
   (strBytes ("TYPE"), .kwType), (strBytes ("CONSTANT"), .kwConstant),
   (strBytes ("GLOBAL"), .kwGlobal), (strBytes ("EXTERN"), .kwExtern),
   (strBytes ("FUNCTION"), .kwFunction), (strBytes ("ENTRY"), .kwEntry),
   (strBytes ("void"), .tyVoid), (strBytes ("bool"), .tyBool),
   (strBytes ("i8"), .tyI8), (strBytes ("i16"), .tyI16),
   (strBytes ("i32"), .tyI32), (strBytes ("i64"), .tyI64),
   (strBytes ("u8"), .tyU8), (strBytes ("u16"), .tyU16),
   (strBytes ("u32"), .tyU32), (strBytes ("u64"), .tyU64),
   (strBytes ("f16"), .tyF16), (strBytes ("f32"), .tyF32),
   (strBytes ("f64"), .tyF64), (strBytes ("ptr"), .tyPtr),
   (strBytes ("vec"), .tyVec), (strBytes ("array"), .tyArray)]

/-- The `instructions` table of lexer.c in order. -/
def instructionTable : List (List Nat × TokenType) :=
  [(strBytes ("ADD"), .insAdd), (strBytes ("SUB"), .insSub),
   (strBytes ("MUL"), .insMul), (strBytes ("DIV"), .insDiv),
   (strBytes ("REM"), .insRem), (strBytes ("NEG"), .insNeg),
   (strBytes ("AND"), .insAnd), (strBytes ("OR"), .insOr),
   (strBytes ("XOR"), .insXor), (strBytes ("NOT"), .insNot),
   (strBytes ("SHL"), .insShl), (strBytes ("SHR"), .insShr),
   (strBytes ("CMP_EQ"), .insCmpEq), (strBytes ("CMP_NE"), .insCmpNe),
   (strBytes ("CMP_LT"), .insCmpLt), (strBytes ("CMP_LE"), .insCmpLe),
   (strBytes ("CMP_GT"), .insCmpGt), (strBytes ("CMP_GE"), .insCmpGe),
   (strBytes ("LOAD"), .insLoad), (strBytes ("STORE"), .insStore),
   (strBytes ("LEA"), .insLea), (strBytes ("BR"), .insBr),
   (strBytes ("CALL"), .insCall), (strBytes ("RET"), .insRet)]

/-- The consume loop of `scan_identifier_or_keyword`. -/
def scanIdentLoop : Nat → Lexer → Lexer
  | 0, lx => lx
  | f + 1, lx =>
    if isIdentByte (currentChar lx) then scanIdentLoop f (lexerAdvance lx) else lx

/-- Mirror of `scan_identifier_or_keyword`: consume identifier bytes, then
compare the span against the keyword table and the instruction table in that
order (length equality plus bytewise equality, as strlen + strncmp do). -/
def scanIdentifierOrKeyword (lx0 : Lexer) : Lexer × Token :=
  let lx1 := scanIdentLoop (lx0.src.length + 1) lx0
  let seg := (lx1.src.drop lx1.tokenStart).take (lx1.pos - lx1.tokenStart)
  match (keywordTable ++ instructionTable).find? (fun kv => kv.1 == seg) with
  | some kv => (lx1, initToken lx1 kv.2)
  | none => (lx1, initToken lx1 .identifier)

/-- The digit-consume loops of `scan_number`. -/
def scanDigitsLoop : Nat → Lexer → Lexer
  | 0, lx => lx
  | f + 1, lx =>
    if isDigitByte (currentChar lx) then scanDigitsLoop f (lexerAdvance lx) else lx

/-- Token finalization of `scan_number`: the too-long checks against the
conversion buffers (64 bytes for floats, 32 for integers) turn the token into
an error; the strtod/strtoll conversion itself is outside the embedding. -/
def numberToken (lx : Lexer) (isFloat : Bool) : Lexer × Token :=
  if isFloat then
    if 64 ≤ lx.pos - lx.tokenStart then (lx, initToken lx .error)
    else (lx, initToken lx .float)
  else
    if 32 ≤ lx.pos - lx.tokenStart then (lx, initToken lx .error)
    else (lx, initToken lx .integer)

/-- Mirror of `scan_number`: integer digits, optional fraction (a dot followed
by a digit), optional exponent with optional sign requiring at least one
digit. -/
def scanNumber (lx0 : Lexer) : Lexer × Token :=
  let lx1 := scanDigitsLoop (lx0.src.length + 1) lx0
  let fr :=
    if currentChar lx1 = 46 ∧ isDigitByte (peekChar lx1) then
      (scanDigitsLoop (lx1.src.length + 1) (lexerAdvance lx1), true)
    else (lx1, false)
  let lx2 := fr.1
  if currentChar lx2 = 101 ∨ currentChar lx2 = 69 then
    let lx3 := lexerAdvance lx2
    let lx4 := if currentChar lx3 = 43 ∨ currentChar lx3 = 45 then lexerAdvance lx3 else lx3
    if isDigitByte (currentChar lx4) = false then (lx4, initToken lx4 .error)
    else numberToken (scanDigitsLoop (lx4.src.length + 1) lx4) true
  else numberToken lx2 fr.2

/-- The scan loop of `scan_string`: advance to the closing quote or the end of
input, stepping over a byte after a backslash. -/
def scanStringLoop : Nat → Lexer → Lexer
  | 0, lx => lx
  | f + 1, lx =>
    if currentChar lx = 34 ∨ currentChar lx = 0 then lx
    else if currentChar lx = 92 then
      let lx1 := lexerAdvance lx
      if currentChar lx1 = 0 then lx1
      else scanStringLoop f (lexerAdvance lx1)
    else scanStringLoop f (lexerAdvance lx)

/-- Mirror of `scan_string`, called as the C calls it with the cursor already
past the byte that `scan_token` consumed; it advances once more itself, marks
the content start, scans to a quote, and reports an error when the input ends
unquoted.  A successful token's span excludes the quotes. -/
def scanString (lx0 : Lexer) : Lexer × Token :=
  let lx1 := lexerAdvance lx0
  let contentStart := lx1.pos
  let lx2 := scanStringLoop (lx1.src.length + 1) lx1
  if currentChar lx2 ≠ 34 then (lx2, initToken lx2 .error)
  else
    let contentEnd := lx2.pos
    let lx3 := lexerAdvance lx2
    let t := initToken lx3 .string
    (lx3, { t with startPos := contentStart, length := contentEnd - contentStart })

/-- Mirror of `scan_token` (lexer.c, lines 485-557): skip whitespace and
comments, record the token start, report EOF at the end of input, otherwise
consume one byte and dispatch on it; identifiers and numbers step the cursor
back first exactly as the C does. -/
def scanToken (lx0 : Lexer) : Lexer × Token :=
  let lxs := lexerSkipWhitespaceAndComments lx0
  let lx := { lxs with tokenStart := lxs.pos, tokenLine := lxs.line, tokenCol := lxs.col }
  if currentChar lx = 0 then (lx, initToken lx .eof)
  else
    let c := currentChar lx
    let lx1 := lexerAdvance lx
    if c = 40 then (lx1, initToken lx1 .lparen)
    else if c = 41 then (lx1, initToken lx1 .rparen)
    else if c = 123 then (lx1, initToken lx1 .lbrace)
    else if c = 125 then (lx1, initToken lx1 .rbrace)
    else if c = 91 then (lx1, initToken lx1 .lbracket)
    else if c = 93 then (lx1, initToken lx1 .rbracket)
    else if c = 44 then (lx1, initToken lx1 .comma)
    else if c = 46 then (lx1, initToken lx1 .dot)
    else if c = 59 then (lx1, initToken lx1 .semicolon)
    else if c = 58 then (lx1, initToken lx1 .colon)
    else if c = 61 then (lx1, initToken lx1 .equal)
    else if c = 60 then (lx1, initToken lx1 .less)
    else if c = 62 then (lx1, initToken lx1 .greater)
    else if c = 45 then
      if currentChar lx1 = 62 then
        let lx2 := lexerAdvance lx1
        (lx2, initToken lx2 .arrow)
      else if isDigitByte (currentChar lx1) then scanNumber lx1
      else (lx1, initToken lx1 .error)
    else if c = 34 then scanString lx1
    else if isAlphaByte c || c == 95 then
      scanIdentifierOrKeyword { lx1 with pos := lx1.pos - 1, col := lx1.col - 1 }
    else if isDigitByte c then
      scanNumber { lx1 with pos := lx1.pos - 1, col := lx1.col - 1 }
    else (lx1, initToken lx1 .error)

/-- Mirror of `lexer_next_token` on a lexer with no peeked token: scan and
report success exactly when the token is neither ERROR nor EOF. -/
def lexerNextToken (lx : Lexer) : Bool × Lexer × Token :=
  let r := scanToken lx
  (decide (r.2.ttype ≠ TokenType.error) && decide (r.2.ttype ≠ TokenType.eof), r)

/-- A source that is nothing but an unterminated block comment. -/
def c9Source : List Nat := [47, 42, 32, 120]

/-- A second unterminated-block-comment source, exercised by the amended
statement. -/
def c9SourceB : List Nat := [47, 42, 120]

/-- Mirror of the debugger `label_entry_t` (coil_debugger.c): id, file
position, and a 64-byte name buffer modelled as a string truncated to 63. -/
structure DbgLabel where
  labelId : Nat
  filePosition : Int
  name : String
deriving DecidableEq

/-- The duplicate-scan of the debugger `add_label` (coil_debugger.c, lines
183-194): update the first entry with the id in place - file position always,
name only when one is supplied (strncpy keeps at most 63 bytes) - and report
whether an entry was found. -/
def dbgUpdateFirst : List DbgLabel → Nat → Int → Option String → Option (List DbgLabel)
  | [], _, _, _ => none
  | e :: rest, labelId, filePosition, name =>
    if e.labelId = labelId then
      some ({ labelId := e.labelId, filePosition := filePosition,
              name := match name with | some n => n.take 63 | none => e.name } :: rest)
    else (dbgUpdateFirst rest labelId filePosition name).map (e :: ·)

/-- Mirror of the debugger `add_label` (coil_debugger.c, lines 177-210):
capacity check first (also in front of a pure update), then update an
existing entry and return success, otherwise append a new entry whose name
defaults to "L" followed by the id. -/
def dbgAddLabel (labels : List DbgLabel) (labelId : Nat) (filePosition : Int)
    (name : Option String) : Option (List DbgLabel) :=
  if MAX_LABELS ≤ labels.length then none
  else match dbgUpdateFirst labels labelId filePosition name with
    | some ls => some ls
    | none =>
      let newName : String := match name with
        | some n => n.take 63
        | none => ("L" ++ toString labelId).take 63
      some (labels ++ [DbgLabel.mk labelId filePosition newName])

/-- First entry with a given id, the lookup underlying the debugger
`find_label` and `find_label_by_position` displays. -/
def dbgFindEntry : List DbgLabel → Nat → Option DbgLabel
  | [], _ => none
  | e :: rest, labelId =>
    if e.labelId = labelId then some e else dbgFindEntry rest labelId

/-- Mirror of the debugger `find_label`: the stored file position of the first
entry with the id. -/
def dbgFindLabel (labels : List DbgLabel) (labelId : Nat) : Option Int :=
  (dbgFindEntry labels labelId).map (fun e => e.filePosition)

/-- A full debugger label table: 256 distinct ids, so the capacity check of
`add_label` fires even for an update of an existing id. -/
def fullDbgLabels : List DbgLabel :=
  (List.range 256).map (fun k => { labelId := k, filePosition := 0, name := "" })

/-- C1: started in binary mode on the stream of exactly three records
ALLOC_IMM i64 @10 = 2, ALLOC_IMM i64 @18 = 40, ADD @0 with
immValue = (10 <<< 32) ||| 18, the VM pipeline (label collection, then
execution) reaches EOF - the running flag is still true and the run returns
the stored exit code 0 - with staticMemory bytes 0..7 decoding little-endian
to 42 and an instruction count of 3. -/
theorem c1_streaming_add_scenario :
    (runProgram c1File 50).map
      (fun r => (r.1, leVal (memReadBytes r.2.staticMemory 0 8),
                 r.2.instructionCount, r.2.running)) =
    some (0, 42, 3, true) := by rfl

/-- C2: contrary to the claim that integer compatibility ignores signedness,
`typecheck_are_types_compatible` on two integer types requires equal bits AND
equal signedness, so i32 and u32 are incompatible; the same-width
signed/unsigned conversion case later in the function is unreachable for two
integer types.  The second conjunct records the exact integer-integer
behaviour of the code. -/
theorem c2_same_width_signedness_incompatible :
    areTypesCompatible (.int 32 true) (.int 32 false) = false ∧
    ∀ b1 s1 b2 s2,
      areTypesCompatible (.int b1 s1) (.int b2 s2) = (b1 == b2 && s1 == s2) := by
  constructor
  · rfl
  · intro b1 s1 b2 s2
    rfl

/-- C4: the bounds check of `get_static_memory_ptr` validates only the base
address, so an ALLOC_IMM of an 8-byte i64 at address 4095 succeeds, writes
through address 4102 beyond the 4096-byte arena, and leaves
staticMemoryUsed = 4103 > STATIC_MEMORY_SIZE, violating the claimed
invariant. -/
theorem c4_bounds_check_misses_size :
    (runProgram c4File 10).map
      (fun r => (r.1, r.2.staticMemoryUsed, r.2.staticMemory 4102)) =
      some (0, 4103, 7) ∧ STATIC_MEMORY_SIZE < 4103 :=
  ⟨by rfl, by decide⟩

/-- C5 counterexample: a divide-by-zero fatal error makes `run_vm` return -1,
but the VM state keeps running = true and exitCode = 0, contradicting the
claim that every fatal error clears the running flag and stores a nonzero
exit code. -/
theorem c5_counterexample_div_by_zero :
    (runProgram c5File 10).map (fun r => (r.1, r.2.running, r.2.exitCode)) =
      some (-1, true, 0) := by rfl

/-- C6 counterexample: the image built from a fresh builder (seven empty
sections) does not begin with the bytes 43 4F 49 4C - the magic is stored
little-endian, so the file begins 4C 49 4F 43. -/
theorem c6_counterexample_first_bytes :
    (coilBuilderBuild (List.replicate 7 [])).take 4 ≠ [0x43, 0x4F, 0x49, 0x4C] := by
  decide

/-- C7: the 14-entry predefined table is byte-packed, not packed as
[category:4][width:8][qualifiers:8][attributes:12]: the i8 entry (index 2) is
0x02080000, while `coil_create_type_encoding` for (TYPE_INTEGER, 8, 0, 0)
yields 0x20800000, and the top four bits of the stored entry are 0
(TYPE_VOID), not TYPE_INTEGER, contradicting the claim (and the format
comment in binary.h that the encoding function follows). -/
theorem c7_predefined_table_diverges_from_encoding :
    predefinedTypes.length = 14 ∧
    predefinedTypes.get? 2 = some 0x02080000 ∧
    coilCreateTypeEncoding TYPE_INTEGER 8 0 0 = 0x20800000 ∧
    (0x02080000 : Nat) / 2 ^ 28 = 0 ∧
    predefinedTypes.get? 2 ≠ some (coilCreateTypeEncoding TYPE_INTEGER 8 0 0) := by
  refine ⟨rfl, rfl, by decide, by decide, by decide⟩

/-- C8 counterexample: on the five-ALLOC / SYSCALL / ARG_DATA stream the VM
executes the SYSCALL by consuming the following ARG_DATA record inside the
handler, so the main loop never counts it: instructionCount ends at 6, not
the claimed 7. -/
theorem c8_counterexample_instruction_count :
    (runProgram c8File 50).map (fun r => r.2.instructionCount) = some 6 ∧
    (6 : Nat) ≠ 7 :=
  ⟨by rfl, by decide⟩

/-- C8 amended: on that stream the host write call receives the five bytes
from static memory on fd 1, the run reaches EOF with exit code 0, and
instructionCount equals 6 (five ALLOCs plus the SYSCALL; the consumed
ARG_DATA record is not separately counted). -/
theorem c8_amended_syscall_write :
    (runProgram c8File 50).map
      (fun r => (r.1, r.2.output, r.2.instructionCount, r.2.running)) =
      some (0, [(1, [72, 101, 108, 108, 10])], 6, true) := by rfl

/-- C9 counterexample: on the source "/* x", which ends inside an unterminated
block comment, `scan_token` yields an ordinary EOF token, not an error token;
`lexer_next_token` reports false exactly as it does at ordinary end of
input. -/
theorem c9_counterexample_eof_not_error :
    (scanToken (lexerCreate c9Source)).2.ttype = TokenType.eof ∧
    (scanToken (lexerCreate c9Source)).2.ttype ≠ TokenType.error ∧
    (lexerNextToken (lexerCreate c9Source)).1 = false :=
  ⟨by rfl, by decide, by rfl⟩

set_option maxRecDepth 10000 in
/-- C10 counterexample: with the 256-entry (full) debugger label table, id 0
already exists, yet `add_label` fails, because its capacity check precedes
the duplicate-update scan - so updating an existing label is not
unconditionally successful. -/
theorem c10_counterexample_full_table :
    dbgFindEntry fullDbgLabels 0 ≠ none ∧
    dbgAddLabel fullDbgLabels 0 7 none = none :=
  ⟨by decide, by decide⟩


theorem execAllocImm_pres (s : VMState) (i : Instr) (b : Bool) (s2 : VMState)
    (h : execAllocImm s i = (b, s2)) :
    s2.running = s.running ∧ s2.exitCode = s.exitCode := by
  simp only [execAllocImm] at h
  repeat' split at h
  all_goals (injection h with h1 h2; subst h2; exact ⟨rfl, rfl⟩)

theorem execAllocMem_pres (s : VMState) (i : Instr) (b : Bool) (s2 : VMState)
    (h : execAllocMem s i = (b, s2)) :
    s2.running = s.running ∧ s2.exitCode = s.exitCode := by
  simp only [execAllocMem] at h
  repeat' split at h
  all_goals (injection h with h1 h2; subst h2; exact ⟨rfl, rfl⟩)

theorem execMove_pres (s : VMState) (i : Instr) (b : Bool) (s2 : VMState)
    (h : execMove s i = (b, s2)) :
    s2.running = s.running ∧ s2.exitCode = s.exitCode := by
  simp only [execMove] at h
  repeat' split at h
  all_goals (injection h with h1 h2; subst h2; exact ⟨rfl, rfl⟩)

theorem execArith_pres (s : VMState) (i : Instr) (b : Bool) (s2 : VMState)
    (h : execArith s i = (b, s2)) :
    s2.running = s.running ∧ s2.exitCode = s.exitCode := by
  simp only [execArith] at h
  repeat' split at h
  all_goals (injection h with h1 h2; subst h2; exact ⟨rfl, rfl⟩)

theorem execJmp_pres (s : VMState) (i : Instr) (b : Bool) (s2 : VMState)
    (h : execJmp s i = (b, s2)) :
    s2.running = s.running ∧ s2.exitCode = s.exitCode := by
  simp only [execJmp] at h
  repeat' split at h
  all_goals (injection h with h1 h2; subst h2; exact ⟨rfl, rfl⟩)

theorem execCondJump_pres (s : VMState) (i : Instr) (b : Bool) (s2 : VMState)
    (h : execCondJump s i = (b, s2)) :
    s2.running = s.running ∧ s2.exitCode = s.exitCode := by
  simp only [execCondJump] at h
  repeat' split at h
  all_goals (injection h with h1 h2; subst h2; exact ⟨rfl, rfl⟩)

theorem execCall_pres (s : VMState) (i : Instr) (b : Bool) (s2 : VMState)
    (h : execCall s i = (b, s2)) :
    s2.running = s.running ∧ s2.exitCode = s.exitCode := by
  simp only [execCall] at h
  repeat' split at h
  all_goals (injection h with h1 h2; subst h2; exact ⟨rfl, rfl⟩)

theorem execRet_pres (s : VMState) (i : Instr) (b : Bool) (s2 : VMState)
    (h : execRet s i = (b, s2)) :
    s2.running = s.running ∧ s2.exitCode = s.exitCode := by
  simp only [execRet] at h
  repeat' split at h
  all_goals (injection h with h1 h2; subst h2; exact ⟨rfl, rfl⟩)

theorem execPush_pres (s : VMState) (i : Instr) (b : Bool) (s2 : VMState)
    (h : execPush s i = (b, s2)) :
    s2.running = s.running ∧ s2.exitCode = s.exitCode := by
  simp only [execPush] at h
  repeat' split at h
  all_goals (injection h with h1 h2; subst h2; exact ⟨rfl, rfl⟩)

theorem execPop_pres (s : VMState) (i : Instr) (b : Bool) (s2 : VMState)
    (h : execPop s i = (b, s2)) :
    s2.running = s.running ∧ s2.exitCode = s.exitCode := by
  simp only [execPop] at h
  repeat' split at h
  all_goals (injection h with h1 h2; subst h2; exact ⟨rfl, rfl⟩)

theorem execSyscall_fail_pres (file : List Nat) (s : VMState) (i : Instr) (s2 : VMState)
    (h : execSyscall file s i = (false, s2)) :
    s2.running = s.running ∧ s2.exitCode = s.exitCode := by
  simp only [execSyscall] at h
  repeat' split at h
  all_goals first
    | (injection h with h1 h2; subst h2; exact ⟨rfl, rfl⟩)
    | (injection h with h1 h2; exact Bool.noConfusion h1)

theorem execFail_preserves (file : List Nat) (s : VMState) (i : Instr) (s2 : VMState)
    (h : executeInstruction file s i = (false, s2)) :
    s2.running = s.running ∧ s2.exitCode = s.exitCode := by
  unfold executeInstruction at h
  by_cases c1 : i.opCode = 0x0001
  · rw [if_pos c1] at h
    exact execAllocImm_pres s i false s2 h
  rw [if_neg c1] at h
  by_cases c2 : i.opCode = 0x0002
  · rw [if_pos c2] at h
    exact execAllocMem_pres s i false s2 h
  rw [if_neg c2] at h
  by_cases c3 : i.opCode = 0x0003
  · rw [if_pos c3] at h
    exact execMove_pres s i false s2 h
  rw [if_neg c3] at h
  by_cases c4 : i.opCode = 0x0101 ∨ i.opCode = 0x0102 ∨ i.opCode = 0x0103 ∨
      i.opCode = 0x0104 ∨ i.opCode = 0x0105
  · rw [if_pos c4] at h
    exact execArith_pres s i false s2 h
  rw [if_neg c4] at h
  by_cases c5 : i.opCode = 0x0301
  · rw [if_pos c5] at h
    exact execJmp_pres s i false s2 h
  rw [if_neg c5] at h
  by_cases c6 : i.opCode = 0x0302 ∨ i.opCode = 0x0303 ∨ i.opCode = 0x0304 ∨
      i.opCode = 0x0305 ∨ i.opCode = 0x0306 ∨ i.opCode = 0x0307
  · rw [if_pos c6] at h
    exact execCondJump_pres s i false s2 h
  rw [if_neg c6] at h
  by_cases c7 : i.opCode = 0x0401
  · rw [if_pos c7] at h
    exact execCall_pres s i false s2 h
  rw [if_neg c7] at h
  by_cases c8 : i.opCode = 0x0402
  · rw [if_pos c8] at h
    exact execRet_pres s i false s2 h
  rw [if_neg c8] at h
  by_cases c9 : i.opCode = 0x0403
  · rw [if_pos c9] at h
    exact execPush_pres s i false s2 h
  rw [if_neg c9] at h
  by_cases c10 : i.opCode = 0x0404
  · rw [if_pos c10] at h
    exact execPop_pres s i false s2 h
  rw [if_neg c10] at h
  by_cases c11 : i.opCode = 0x0501
  · rw [if_pos c11] at h
    exact execSyscall_fail_pres file s i s2 h
  rw [if_neg c11] at h
  by_cases c12 : i.opCode = 0x0502
  · rw [if_pos c12] at h
    injection h with h1 h2
    exact Bool.noConfusion h1
  rw [if_neg c12] at h
  by_cases c13 : i.opCode = 0xFFFE
  · rw [if_pos c13] at h
    injection h with h1 h2
    subst h2
    exact ⟨rfl, rfl⟩
  rw [if_neg c13] at h
  injection h with h1 h2
  subst h2
  exact ⟨rfl, rfl⟩

/-- C5 amended: a fatal error during execution (a failing step of
`execute_instruction`) makes `run_vm` return -1 immediately, while the
running flag and exitCode of the VM state are left exactly as they were
before the instruction - running stays true and exitCode is unchanged;
running = false with a stored exit code is produced only by OP_EXIT and the
exit syscall.  The nonzero failure indication is the return value of
`run_vm`, not the stored exitCode. -/
theorem c5_amended_fatal_error (file : List Nat) (fuel : Nat) (s : VMState) (i : Instr) (s2 : VMState)
    (hrun : s.running = true)
    (hread : readInstr (file.drop s.pos) = .ok i)
    (hexec : executeInstruction file { s with pos := s.pos + 18 } i = (false, s2)) :
    runVM file (fuel + 1) s = some (-1, s2) ∧ s2.running = true ∧
      s2.exitCode = s.exitCode := by
  have hp := execFail_preserves file { s with pos := s.pos + 18 } i s2 hexec
  rw [hrun] at hexec
  refine ⟨?_, ?_, hp.2⟩
  · rw [runVM]
    simp only [hrun, hread, hexec, Bool.true_eq_false, if_false, ite_false]
    rfl
  · rw [hp.1]; exact hrun

/-- Witness for `c5_amended_fatal_error`: the divide-by-zero program. -/
theorem c5_amended_fatal_error_witness :
    runVM c5File 5 (initVM []) = some (-1, { initVM [] with pos := 18 }) :=
  (c5_amended_fatal_error c5File 4 (initVM []) c5DivInstr { initVM [] with pos := 18 }
    rfl rfl rfl).1

/-- C3: for every streaming record whose startMarker, typeMarker, varMarker,
immMarker and endMarker hold their prescribed values 0xC0, 0xC3, 0xC1, 0xC2,
0xCF (and whose fields fit their C struct widths), decoding the encoding
succeeds and reproduces the record bit for bit; and altering any one of the
five marker bytes of the encoding (offsets 0, 3, 5, 8, 17) to any value other
than the marker prescribed there - in particular to any non-marker value -
makes the decoder return an error rather than an instruction. -/
theorem c3_codec_roundtrip_and_markers (i : Instr) (hw : wfInstr i) :
    readInstr (encodeInstr i) = .ok i ∧
    ∀ off v, off ∈ ([0, 3, 5, 8, 17] : List Nat) → v ≠ markerValueAt off →
      readInstr ((encodeInstr i).set off v) = .err := by
  obtain ⟨sm, op, tm, ty, vk, va, ik, im, em⟩ := i
  obtain ⟨h0, h3, h5, h8, h17, hop, hty, hva, him⟩ := hw
  simp only at h0 h3 h5 h8 h17 hop hty hva him
  subst h0 h3 h5 h8 h17
  constructor
  · simp only [encodeInstr, leBytes, readInstr, List.cons_append, List.nil_append, leVal]
    simp only [ne_eq, not_true_eq_false, if_false, ite_false, not_false_eq_true,
      ReadResult.ok.injEq, Instr.mk.injEq, true_and, and_true]
    refine ⟨?_, ?_, ?_⟩ <;> omega
  · intro off v hoff hv
    simp only [List.mem_cons, List.not_mem_nil, or_false] at hoff
    rcases hoff with h | h | h | h | h <;> subst h <;>
      simp only [markerValueAt] at hv <;>
      simp only [encodeInstr, leBytes, List.cons_append, List.nil_append, List.set] <;>
      simp [readInstr, hv]

/-- Witness for `c3_codec_roundtrip_and_markers`: a concrete ADD record, and
its encoding with the type-marker byte (offset 3) altered to 0. -/
theorem c3_codec_roundtrip_and_markers_witness :
    wfInstr (initBinaryInstruction 0x0101 8 3 42) ∧
    readInstr (encodeInstr (initBinaryInstruction 0x0101 8 3 42)) =
      .ok (initBinaryInstruction 0x0101 8 3 42) ∧
    readInstr ((encodeInstr (initBinaryInstruction 0x0101 8 3 42)).set 3 0) = .err :=
  ⟨by decide,
   (c3_codec_roundtrip_and_markers (initBinaryInstruction 0x0101 8 3 42) (by decide)).1,
   (c3_codec_roundtrip_and_markers (initBinaryInstruction 0x0101 8 3 42) (by decide)).2
     3 0 (by decide) (by decide)⟩

/-- C6 amended: for every module image produced by the builder's build
operation, the header struct holds magic = 0x434F494C, version = 0x00010000
and sectionCount = 7, and the serialized buffer begins with the twelve
little-endian bytes 4C 49 4F 43 00 00 01 00 07 00 00 00 - the magic u32 is
stored little-endian, so the file starts with the bytes L I O C, not the
ASCII sequence C O I L claimed by the spec. -/
theorem c6_amended_header_bytes (sections : List (List Nat)) :
    builtHeader.magic = 0x434F494C ∧ builtHeader.version = 0x00010000 ∧
    builtHeader.sectionCount = 7 ∧
    (coilBuilderBuild sections).take 12 =
      [0x4C, 0x49, 0x4F, 0x43, 0x00, 0x00, 0x01, 0x00, 0x07, 0x00, 0x00, 0x00] := by
  refine ⟨rfl, rfl, rfl, ?_⟩
  unfold coilBuilderBuild
  rw [List.append_assoc, List.take_append_of_le_length (by decide)]
  decide


/-- Helper for C10: when an entry with the id exists, the update scan of the
debugger `add_label` succeeds, keeps the list length, and the first entry
with the id afterwards carries the new position and the truncated name. -/
theorem dbgUpdateFirst_found (labels : List DbgLabel) (labelId : Nat) (p : Int) (nm : String)
    (hmem : labels.any (fun e => e.labelId == labelId) = true) :
    ∃ ls, dbgUpdateFirst labels labelId p (some nm) = some ls ∧
      ls.length = labels.length ∧
      dbgFindEntry ls labelId = some (DbgLabel.mk labelId p (nm.take 63)) := by
  induction labels with
  | nil => simp at hmem
  | cons e rest ih =>
    by_cases he : e.labelId = labelId
    · refine ⟨DbgLabel.mk e.labelId p (nm.take 63) :: rest, ?_, ?_, ?_⟩
      · rw [dbgUpdateFirst]
        rw [if_pos he]
      · simp
      · rw [dbgFindEntry]
        rw [if_pos he]
        simp [he]
    · simp only [List.any_cons, Bool.or_eq_true, beq_iff_eq] at hmem
      rcases hmem with h | h
      · exact absurd h he
      obtain ⟨ls, hls, hlen, hfind⟩ := ih (by simp [h])
      refine ⟨e :: ls, ?_, ?_, ?_⟩
      · rw [dbgUpdateFirst]
        rw [if_neg he, hls]
        rfl
      · simp [hlen]
      · rw [dbgFindEntry]
        rw [if_neg he]
        exact hfind

/-- C10 amended: provided the debugger label table is not full (fewer than
MAX_LABELS = 256 entries), adding a label whose id already exists is not an
error: the call returns success, the label count is unchanged, and the stored
entry for that id now carries the new file position and (when given) the new
name truncated to the 63 bytes the C buffer keeps; in contrast the VM's
`add_label` fails whenever the id is already present (and a capacity check
there precedes even that scan).  When the debugger table is exactly full, the
capacity check fires first and even an update of an existing id fails - the
restriction the counterexample forces. -/
theorem c10_amended_duplicate_label (labels : List DbgLabel) (labelId : Nat) (p : Int) (nm : String)
    (hcap : labels.length < MAX_LABELS)
    (hmem : labels.any (fun e => e.labelId == labelId) = true) :
    ((dbgAddLabel labels labelId p (some nm)).map List.length = some labels.length) ∧
    ((dbgAddLabel labels labelId p (some nm)).bind
      (fun ls => dbgFindEntry ls labelId) = some (DbgLabel.mk labelId p (nm.take 63))) ∧
    (∀ vmLabels : List (Nat × Nat), vmLabels.any (fun e => e.1 == labelId) = true →
      ∀ q, vmAddLabel vmLabels labelId q = none) := by
  obtain ⟨ls, hls, hlen, hfind⟩ := dbgUpdateFirst_found labels labelId p nm hmem
  have hadd : dbgAddLabel labels labelId p (some nm) = some ls := by
    unfold dbgAddLabel
    rw [if_neg (by omega), hls]
  refine ⟨by rw [hadd]; simp [hlen], by rw [hadd]; simp [hfind], ?_⟩
  intro vmLabels hvm q
  unfold vmAddLabel
  by_cases hc : MAX_LABELS ≤ vmLabels.length
  · rw [if_pos hc]
  · rw [if_neg hc, if_pos hvm]

/-- Witness for `c10_amended_duplicate_label`: a one-entry table whose id 5
is updated to position 99 with name "loop". -/
theorem c10_amended_duplicate_label_witness :
    (dbgAddLabel [DbgLabel.mk 5 10 ("x")] 5 99 (some ("loop"))).map List.length =
      some ([DbgLabel.mk 5 10 ("x")] : List DbgLabel).length ∧
    (dbgAddLabel [DbgLabel.mk 5 10 ("x")] 5 99 (some ("loop"))).bind
      (fun ls => dbgFindEntry ls 5) =
      some (DbgLabel.mk 5 99 (("loop" : String).take 63)) :=
  ⟨(c10_amended_duplicate_label [DbgLabel.mk 5 10 ("x")] 5 99 ("loop") (by decide) (by decide)).1,
   (c10_amended_duplicate_label [DbgLabel.mk 5 10 ("x")] 5 99 ("loop") (by decide) (by decide)).2.1⟩


/-- Helper for C9: advancing the lexer never changes the source. -/
theorem lexerAdvance_src (lx : Lexer) : (lexerAdvance lx).src = lx.src := by
  simp only [lexerAdvance]
  repeat' split
  all_goals rfl

/-- Helper for C9: away from the NUL sentinel, advancing moves one byte. -/
theorem lexerAdvance_pos_of_ne (lx : Lexer) (h : currentChar lx ≠ 0) :
    (lexerAdvance lx).pos = lx.pos + 1 := by
  simp only [lexerAdvance]
  rw [if_neg h]
  split <;> rfl

/-- Helper for C9: at or past the end of the source the current byte is the
NUL sentinel. -/
theorem currentChar_zero_of_ge (lx : Lexer) (h : lx.src.length ≤ lx.pos) :
    currentChar lx = 0 := by
  unfold currentChar byteAt
  rw [if_neg (by omega)]

/-- Helper for C9: when no block-comment terminator occurs at or after the
cursor, the block-comment loop runs to the end of input and reports the
unterminated case. -/
theorem skipBlockLoop_no_close (f : Nat) (lx : Lexer)
    (hfuel : lx.src.length ≤ lx.pos + f)
    (hnoterm : ∀ j, lx.pos ≤ j →
      ¬(byteAt lx.src j = 42 ∧ byteAt lx.src (j + 1) = 47)) :
    (skipBlockLoop f lx).2 = false ∧ (skipBlockLoop f lx).1.src = lx.src ∧
      currentChar (skipBlockLoop f lx).1 = 0 := by
  induction f generalizing lx with
  | zero =>
    exact ⟨rfl, rfl, currentChar_zero_of_ge lx (by omega)⟩
  | succ f ih =>
    rw [skipBlockLoop]
    have hg1 : ¬(currentChar lx = 42 ∧ peekChar lx = 47) := by
      intro hc
      exact hnoterm lx.pos le_rfl ⟨hc.1, hc.2⟩
    rw [if_neg hg1]
    by_cases hz : currentChar lx = 0
    · rw [if_pos hz]
      exact ⟨rfl, rfl, hz⟩
    · rw [if_neg hz]
      have hsrc := lexerAdvance_src lx
      have hpos := lexerAdvance_pos_of_ne lx hz
      have := ih (lexerAdvance lx)
        (by rw [hsrc, hpos]; omega)
        (by rw [hsrc, hpos]; intro j hj; exact hnoterm j (by omega))
      rw [hsrc] at this
      exact this

/-- Helper for C9: recording the token start does not move the cursor. -/
theorem currentChar_mark (lx : Lexer) (a b c : Nat) :
    currentChar { lx with tokenStart := a, tokenLine := b, tokenCol := c } =
      currentChar lx := rfl

/-- C9 amended: for every lexer state at the opening of a /* block comment
whose remaining input contains no terminating star-slash pair, the next token
is the ordinary end-of-input token TOKEN_EOF (so `lexer_next_token` reports
false the same way as at ordinary end of input); no error token is produced,
contrary to the claim that the lexer fails. -/
theorem c9_amended_unterminated_comment (lx : Lexer)
    (hslash : currentChar lx = 47) (hstar : peekChar lx = 42)
    (hnoterm : ∀ j, lx.pos + 2 ≤ j →
      ¬(byteAt lx.src j = 42 ∧ byteAt lx.src (j + 1) = 47)) :
    (scanToken lx).2.ttype = TokenType.eof := by
  have h1src := lexerAdvance_src lx
  have h1pos := lexerAdvance_pos_of_ne lx (by rw [hslash]; decide)
  have h2src := lexerAdvance_src (lexerAdvance lx)
  have hcur1 : currentChar (lexerAdvance lx) = 42 := by
    unfold currentChar
    rw [h1src, h1pos]
    exact hstar
  have h2pos : (lexerAdvance (lexerAdvance lx)).pos = lx.pos + 2 := by
    rw [lexerAdvance_pos_of_ne _ (by rw [hcur1]; decide), h1pos]
  have hsrc2 : (lexerAdvance (lexerAdvance lx)).src = lx.src := h2src.trans h1src
  have hb := skipBlockLoop_no_close (lx.src.length + 1) (lexerAdvance (lexerAdvance lx))
    (by rw [hsrc2, h2pos]; omega)
    (by
      rw [hsrc2, h2pos]
      intro j hj
      exact hnoterm j hj)
  have hskip : lexerSkipWhitespaceAndComments lx =
      (skipBlockLoop (lx.src.length + 1) (lexerAdvance (lexerAdvance lx))).1 := by
    unfold lexerSkipWhitespaceAndComments
    rw [skipWsLoop]
    rw [if_neg (by rw [hslash]; decide)]
    rw [if_neg (by intro hc; rw [hstar] at hc; exact absurd hc.2 (by decide))]
    rw [if_pos ⟨hslash, hstar⟩]
    simp only [hb.1, Bool.false_eq_true, if_false, ite_false]
  simp only [scanToken, hskip, currentChar_mark, hb.2.2, if_pos]
  rfl

/-- Witness for `c9_amended_unterminated_comment`: the source consisting of
slash, star, and one more byte, never closed. -/
theorem c9_amended_unterminated_comment_witness :
    (scanToken (lexerCreate c9SourceB)).2.ttype = TokenType.eof := by
  apply c9_amended_unterminated_comment
  · rfl
  · rfl
  · intro j hj hc
    have hb := hc.1
    have hj2 : 2 ≤ j := by
      simpa [lexerCreate] using hj
    by_cases hcase : j < (c9SourceB).length
    · have hj3 : j = 2 := by
        simp only [c9SourceB, List.length_cons, List.length_nil] at hcase
        omega
      subst hj3
      exact absurd hb (by decide)
    · unfold byteAt at hb
      rw [show (lexerCreate c9SourceB).src = c9SourceB from rfl] at hb
      rw [if_neg hcase] at hb
      exact absurd hb (by decide)
